import Mathlib

/-!
Shallow embedding of the collision/movement/combat core of the
`gta-style-game` repository (TypeScript), together with theorems checking
the natural-language specification against it.

Conventions of the embedding:
* JS `number` is modelled by `ℚ`; all arithmetic in the embedded code paths
  is exact rational arithmetic.
* `Math.sqrt` never needs to be computed as a value: every use in the source
  is a comparison `sqrt d2 < s` (or `> s`), which we embed as
  `0 < s ∧ d2 < s^2` (resp. `d2 > s*s` for the nonnegative thresholds used),
  exactly equivalent for `d2 ≥ 0`.
* `Math.floor (speed / 30)` with `speed = sqrt d2` is embedded through
  `Nat.sqrt ⌊d2⌋`, using the identity `⌊sqrt x⌋ = Nat.sqrt ⌊x⌋` for `x ≥ 0`
  and `⌊s / 30⌋ = ⌊⌊s⌋ / 30⌋`.
* Entity/collider ids are strings in the source (`'player'`, `'npc_0'`, ...);
  we index them by naturals.
* A JS `Map` is embedded as an association list in insertion order
  (`Map.set` overwrites in place or appends; `Map.delete` removes;
  iteration follows the list).
* Angles that the source produces with `Math.atan2` (range `(-π, π]`) are
  carried as rational degrees in `(-180, 180]`; the source's radian
  comparisons are scaled by `180/π` throughout, which preserves every
  comparison exactly.
-/

/-- 2D vector (`Vector2`), as a pair of rationals. -/
abbrev Vec := ℚ × ℚ

namespace Vec

/-- `Vector2.add`. -/
def add (a b : Vec) : Vec := (a.1 + b.1, a.2 + b.2)

/-- `Vector2.subtract`. -/
def sub (a b : Vec) : Vec := (a.1 - b.1, a.2 - b.2)

/-- `Vector2.multiply` (scalar). -/
def smul (k : ℚ) (a : Vec) : Vec := (k * a.1, k * a.2)

/-- Dot product `a.x*b.x + a.y*b.y` (written out inline in the source). -/
def dot (a b : Vec) : ℚ := a.1 * b.1 + a.2 * b.2

/-- Squared length; `Vector2.length()` is `Real.sqrt` of this. -/
def normSq (a : Vec) : ℚ := a.1 * a.1 + a.2 * a.2

/-- Squared distance; `Vector2.distance(a,b)` is `Real.sqrt` of this. -/
def distSq (a b : Vec) : ℚ := normSq (sub a b)

end Vec

/-- `sqrt d2 < s`, for a squared quantity `d2 ≥ 0`: true iff the bound is
positive and `d2` is below its square.  This is the exact meaning of every
`distance < r` comparison in the source. -/
def sqrtLt (d2 s : ℚ) : Prop := 0 < s ∧ d2 < s * s

instance (d2 s : ℚ) : Decidable (sqrtLt d2 s) := by
  unfold sqrtLt; infer_instance

/-- `sqrt d2 > s` for a nonnegative threshold `s ≥ 0` (all despawn ranges in
the source are positive literals): equivalent to `d2 > s^2`. -/
def sqrtGt (d2 s : ℚ) : Prop := d2 > s * s

instance (d2 s : ℚ) : Decidable (sqrtGt d2 s) := by
  unfold sqrtGt; infer_instance

/-- Fuel-based Newton iteration for the integer square root: identical to the
recursion of `Nat.sqrt.iter`, with the guess itself as decreasing fuel (the
guess strictly decreases every recursive step), so that it evaluates inside
the kernel; `sqrtIterFuel_eq` proves it equal to `Nat.sqrt.iter`. -/
def sqrtIterFuel (n : ℕ) : ℕ → ℕ → ℕ
  | 0, guess => guess
  | f + 1, guess =>
    let next := (guess + n / guess) / 2
    if next < guess then sqrtIterFuel n f next else guess

/-- Kernel-evaluating integer square root; `natSqrtE_eq` proves it equal to
`Nat.sqrt`. -/
def natSqrtE (n : ℕ) : ℕ :=
  if n ≤ 1 then n else sqrtIterFuel n (n / 2) (n / 2)

/-- `⌊sqrt d2⌋` for `d2 ≥ 0`, via `⌊Real.sqrt x⌋ = Nat.sqrt ⌊x⌋`; the floor
of the nonnegative rational `d2` is `num / den` in integer division. -/
def floorSqrt (d2 : ℚ) : ℕ := natSqrtE (Int.toNat d2.num / d2.den)

/-- `Math.max` on rationals, written so that it evaluates in the kernel. -/
def qmax (a b : ℚ) : ℚ := if a ≤ b then b else a

/-- `Math.min` on rationals, written so that it evaluates in the kernel. -/
def qmin (a b : ℚ) : ℚ := if a ≤ b then a else b

/-- Collider shape tag (`type: 'circle' | 'rect'`). -/
inductive CType where
  | circle
  | rect
deriving DecidableEq, Repr

/-- `Collider` interface: position, radius, shape, optional width/height. -/
structure Collider where
  position : Vec
  radius : ℚ
  ctype : CType
  width : Option ℚ := none
  height : Option ℚ := none
deriving DecidableEq, Repr

/-- The collider registry: `Map<string, Collider>` as an association list in
insertion order, keyed by naturals standing for the string ids. -/
abbrev CollisionSystem := List (ℕ × Collider)

namespace CollisionSystem

/-- `register(id, collider)`: `Map.set` semantics — overwrite in place if the
key is present, else append. -/
def register (cs : CollisionSystem) (id : ℕ) (c : Collider) : CollisionSystem :=
  if cs.any (fun p => p.1 = id) then
    cs.map (fun p => if p.1 = id then (p.1, c) else p)
  else
    cs ++ [(id, c)]

/-- `unregister(id)`: `Map.delete`. -/
def unregister (cs : CollisionSystem) (id : ℕ) : CollisionSystem :=
  cs.filter (fun p => decide (p.1 ≠ id))

/-- `updatePosition(id, position)`: mutate the stored collider's position if
the id is registered, otherwise do nothing. -/
def updatePosition (cs : CollisionSystem) (id : ℕ) (pos : Vec) : CollisionSystem :=
  cs.map (fun p => if p.1 = id then (p.1, { p.2 with position := pos }) else p)

/-- `getCollider(id)`. -/
def getCollider (cs : CollisionSystem) (id : ℕ) : Option Collider :=
  (cs.find? (fun p => p.1 = id)).map (fun p => p.2)

/-- `circleToCircle`: colliding iff `distance(centers) < r1 + r2` (strict). -/
def circleToCircle (a b : Collider) : Prop :=
  sqrtLt (Vec.distSq a.position b.position) (a.radius + b.radius)

instance (a b : Collider) : Decidable (circleToCircle a b) := by
  unfold circleToCircle; infer_instance

/-- The closest point of a rect to a circle center: clamp the center into the
rect's bounding box (`width || 0` / `height || 0` for missing extents). -/
def closestPoint (circle rect : Collider) : Vec :=
  (qmax rect.position.1 (qmin circle.position.1 (rect.position.1 + rect.width.getD 0)),
   qmax rect.position.2 (qmin circle.position.2 (rect.position.2 + rect.height.getD 0)))

/-- `circleToRect`: colliding iff the distance from the circle center to the
clamped closest point is `< radius` (strict). -/
def circleToRect (circle rect : Collider) : Prop :=
  sqrtLt (Vec.distSq circle.position (closestPoint circle rect)) circle.radius

instance (c r : Collider) : Decidable (circleToRect c r) := by
  unfold circleToRect; infer_instance

/-- `rectToRect`: the standard axis-aligned overlap test. -/
def rectToRect (a b : Collider) : Prop :=
  a.position.1 < b.position.1 + b.width.getD 0 ∧
  a.position.1 + a.width.getD 0 > b.position.1 ∧
  a.position.2 < b.position.2 + b.height.getD 0 ∧
  a.position.2 + a.height.getD 0 > b.position.2

instance (a b : Collider) : Decidable (rectToRect a b) := by
  unfold rectToRect; infer_instance

/-- Shape dispatch of `isColliding` on two already-looked-up colliders. -/
def collidersCollide (c1 c2 : Collider) : Prop :=
  match c1.ctype, c2.ctype with
  | .circle, .circle => circleToCircle c1 c2
  | .circle, .rect => circleToRect c1 c2
  | .rect, .circle => circleToRect c2 c1
  | .rect, .rect => rectToRect c1 c2

instance (c1 c2 : Collider) : Decidable (collidersCollide c1 c2) := by
  unfold collidersCollide
  rcases c1.ctype <;> rcases c2.ctype <;> infer_instance

/-- `isColliding(id1, id2)`: false when either id is unregistered. -/
def isColliding (cs : CollisionSystem) (id1 id2 : ℕ) : Prop :=
  match getCollider cs id1, getCollider cs id2 with
  | some c1, some c2 => collidersCollide c1 c2
  | _, _ => False

instance (cs : CollisionSystem) (id1 id2 : ℕ) : Decidable (isColliding cs id1 id2) := by
  unfold isColliding
  rcases getCollider cs id1 <;> rcases getCollider cs id2 <;> infer_instance

/-- `getCollisions(id)`: linear scan over all registered colliders, skipping
the id itself, in registration order. -/
def getCollisions (cs : CollisionSystem) (id : ℕ) : List ℕ :=
  (cs.map (fun p => p.1)).filter (fun o => decide (o ≠ id) && decide (isColliding cs id o))

/-- `getCollisionNormal` (circle↔circle), carried UNNORMALIZED: the source
returns the unit vector `diff.normalize()` where
`diff = collider2.position - collider1.position`, or the fixed default
`(1,0)` at zero separation.  We return `diff` itself (`(1,0)` in the
degenerate case, which is already unit); all downstream uses of the unit
normal `n = d / ‖d‖` are algebraically rephrased over `d`, keeping the
computation exact over `ℚ`. -/
def getCollisionNormalD (cs : CollisionSystem) (id1 id2 : ℕ) : Option Vec :=
  match getCollider cs id1, getCollider cs id2 with
  | some c1, some c2 =>
      let diff := Vec.sub c2.position c1.position
      if diff = (0, 0) then some (1, 0) else some diff
  | _, _ => none

/-- `getCollisionNormalCircleRect`, unnormalized like `getCollisionNormalD`:
the source returns the unit vector from the clamped closest point toward the
circle center, or `(1,0)` at zero separation. -/
def getCollisionNormalCircleRectD (cs : CollisionSystem) (circleId rectId : ℕ) : Option Vec :=
  match getCollider cs circleId, getCollider cs rectId with
  | some circ, some rct =>
      let diff := Vec.sub circ.position (closestPoint circ rct)
      if diff = (0, 0) then some (1, 0) else some diff
  | _, _ => none

end CollisionSystem

/-- `Vector2.multiply(scalar)` in source argument order (`v.multiply(k)`). -/
def Vec.mul (a : Vec) (k : ℚ) : Vec := (a.1 * k, a.2 * k)

open CollisionSystem in
/-- The axis-sliding movement block shared verbatim by `Player.update`
(src/entities/Player.ts, lines 383-417) and `NPC.update` (NPC.ts, lines
139-170): try the full displacement, then X only, then Y only, else stay.
Returns the mutated registry, the committed position, and the entity's
velocity (which this block never reassigns). -/
def axisSlideMove (cs : CollisionSystem) (id : ℕ) (pos vel : Vec) (dt : ℚ) :
    CollisionSystem × Vec × Vec :=
  let newPosition := Vec.add pos (Vec.mul vel dt)
  let cs1 := updatePosition cs id newPosition
  if getCollisions cs1 id ≠ [] then
    let testX := Vec.add pos (vel.1 * dt, 0)
    let cs2 := updatePosition cs1 id testX
    if getCollisions cs2 id = [] then (cs2, testX, vel)
    else
      let testY := Vec.add pos (0, vel.2 * dt)
      let cs3 := updatePosition cs2 id testY
      if getCollisions cs3 id = [] then (cs3, testY, vel)
      else (updatePosition cs3 id pos, pos, vel)
  else (cs1, newPosition, vel)

open CollisionSystem in
/-- The collision set an entity would have at a tentative position: update the
registry to that position, then run the linear scan. -/
def collisionsAt (cs : CollisionSystem) (id : ℕ) (p : Vec) : List ℕ :=
  getCollisions (updatePosition cs id p) id

/-! ### Vehicle (src/unnamed/part_000, class `Vehicle`) -/

/-- `maxSpeed = 900`. -/
def vehicleMaxSpeed : ℚ := 900

/-- `acceleration = 450`. -/
def vehicleAccelConst : ℚ := 450

/-- `friction = 0.98`. -/
def vehicleFriction : ℚ := 98 / 100

/-- Vehicle collider radius `Math.max(width, height) / 2 = max(40, 24) / 2`. -/
def vehicleRadius : ℚ := qmax 40 24 / 2

/-- Vehicle state.  `heading` carries the unit vector
`(cos rotation, sin rotation)` that the source recomputes from the stored
angle; `lastNormalD` carries the last collision normal in the unnormalized
representation of `getCollisionNormalD`. -/
structure VehicleState where
  id : ℕ
  position : Vec
  velocity : Vec
  heading : Vec
  health : ℚ := 100
  isDead : Bool := false
  restitution : ℚ := 6 / 10
  lastNormalD : Option Vec := none
deriving DecidableEq, Repr

/-- `new Vehicle(id, position)`: velocity zero, rotation 0 (heading `(1,0)`),
health 100, restitution 0.6. -/
def vehicleMk (id : ℕ) (pos : Vec) : VehicleState :=
  { id := id, position := pos, velocity := (0, 0), heading := (1, 0) }

/-- `Vehicle.takeDamage`: no-op once destroyed; health clamps to 0 and sets
`isDead` on the killing blow. -/
def vehicleTakeDamage (damage : ℚ) (v : VehicleState) : VehicleState :=
  if v.isDead then v
  else
    let h := v.health - damage
    if h ≤ 0 then { v with health := 0, isDead := true }
    else { v with health := h }

/-- `Vehicle.accelerate()`: only when the current speed is below `maxSpeed`,
add `heading · (acceleration * 0.016)` to the velocity.  The speed
comparison `velocity.length() < maxSpeed` is embedded on squares. -/
def vehicleAccelerate (v : VehicleState) : VehicleState :=
  if Vec.normSq v.velocity < vehicleMaxSpeed * vehicleMaxSpeed then
    { v with velocity := Vec.add v.velocity (Vec.mul v.heading (vehicleAccelConst * (16 / 1000))) }
  else v

open CollisionSystem in
/-- The normal-search loop of `Vehicle.update`: walk the collision list, take
the first collider pair that is circle↔circle or circle↔rect and yields a
normal; other shape pairings and failed lookups leave the normal null and
continue the loop. -/
def findNormalD (cs : CollisionSystem) (id : ℕ) : List ℕ → Option Vec
  | [] => none
  | cid :: rest =>
    match getCollider cs id, getCollider cs cid with
    | some c1, some c2 =>
      match c1.ctype, c2.ctype with
      | .circle, .circle =>
        match getCollisionNormalD cs id cid with
        | some d => some d
        | none => findNormalD cs id rest
      | .circle, .rect =>
        match getCollisionNormalCircleRectD cs id cid with
        | some d => some d
        | none => findNormalD cs id rest
      | _, _ => findNormalD cs id rest
    | _, _ => findNormalD cs id rest

open CollisionSystem in
/-- `Vehicle.update(deltaTime)` (part_000 lines 573-666), for a vehicle with
an attached collision system (the game always attaches one; the detached
branch of the source just commits `newPosition`).

Friction scales velocity, the tentative move is collision-checked, then
X-only / Y-only slides with axis reflection, else the normal-based bounce
`v' = v - (1+e)(v·n)n` — rephrased over the unnormalized `d` as
`v - ((1+e)(v·d)/(d·d))·d`, which is the same vector — plus impact damage
`max(1, floor(speed/30))` when the pre-collision speed exceeds 50. -/
def vehicleUpdate (dt : ℚ) (cs : CollisionSystem) (v : VehicleState) :
    CollisionSystem × VehicleState :=
  let vel := Vec.mul v.velocity vehicleFriction
  let newPosition := Vec.add v.position (Vec.mul vel dt)
  let cs1 := updatePosition cs v.id newPosition
  let collisions := getCollisions cs1 v.id
  if collisions ≠ [] then
    let collisionSpeedSq := Vec.normSq vel
    let testX := Vec.add v.position (vel.1 * dt, 0)
    let cs2 := updatePosition cs1 v.id testX
    if getCollisions cs2 v.id = [] then
      (cs2, { v with position := testX, velocity := (vel.1, -vel.2 * v.restitution) })
    else
      let testY := Vec.add v.position (0, vel.2 * dt)
      let cs3 := updatePosition cs2 v.id testY
      if getCollisions cs3 v.id = [] then
        (cs3, { v with position := testY, velocity := (-vel.1 * v.restitution, vel.2) })
      else
        let cs4 := updatePosition cs3 v.id v.position
        let normalD := findNormalD cs4 v.id collisions
        let newVel :=
          match normalD with
          | some d =>
            let vdotd := Vec.dot vel d
            if vdotd < 0 then
              Vec.sub vel (Vec.mul d ((1 + v.restitution) * vdotd / Vec.dot d d))
            else vel
          | none => Vec.mul vel (-v.restitution)
        let v2 := { v with
          velocity := newVel,
          lastNormalD := if normalD.isSome then normalD else v.lastNormalD }
        let v3 :=
          if collisionSpeedSq > 50 * 50 then
            vehicleTakeDamage ((max 1 (floorSqrt collisionSpeedSq / 30) : ℕ) : ℚ) v2
          else v2
        (cs4, v3)
  else (cs1, { v with position := newPosition, velocity := vel })

/-! ### NPC and Player damage state (NPC.ts, Player.ts) -/

/-- `NPCBehavior`. -/
inductive NPCBehavior where
  | idle
  | patrol
  | chase
  | flee
deriving DecidableEq, Repr

/-- `NPC.radius = 6`. -/
def npcRadius : ℚ := 6

/-- `Player.radius = 8`. -/
def playerRadius : ℚ := 8

/-- The NPC fields touched by damage and pruning. -/
structure NPCState where
  position : Vec
  velocity : Vec := (0, 0)
  health : ℚ := 50
  isDead : Bool := false
  behavior : NPCBehavior := .idle
  targetPosition : Option Vec := none
deriving DecidableEq, Repr

/-- `NPC.takeDamage(damage, attackerPosition?)`: no-op once dead; clamp health
at 0 and set `isDead` on the killing blow; when an attacker position is
given, force `CHASE` with that target (the source's `setBehavior(CHASE)`
only assigns the behavior field). -/
def npcTakeDamage (damage : ℚ) (attackerPosition : Option Vec) (n : NPCState) : NPCState :=
  if n.isDead then n
  else
    let h := n.health - damage
    let n1 := if h ≤ 0 then { n with health := 0, isDead := true } else { n with health := h }
    match attackerPosition with
    | some ap => { n1 with behavior := .chase, targetPosition := some ap }
    | none => n1

/-- The Player fields touched by damage and the combat passes. -/
structure PlayerCombat where
  position : Vec
  health : ℚ := 100
  isDead : Bool := false
  inVehicle : Bool := false
deriving DecidableEq, Repr

/-- `Player.takeDamage(damage)`. -/
def playerTakeDamage (damage : ℚ) (p : PlayerCombat) : PlayerCombat :=
  if p.isDead then p
  else
    let h := p.health - damage
    if h ≤ 0 then { p with health := 0, isDead := true }
    else { p with health := h }

/-! ### NPC manager pruning and vehicle manager update (part_000) -/

/-- The NPC manager's entity map (`Map<string, NPC>`). -/
structure NPCManagerState where
  npcs : List (ℕ × NPCState)
  npcIdCounter : ℕ := 0
deriving Repr

/-- `NPCManager.removeNPC(id)` (part_000 lines 315-317): exactly
`this.npcs.delete(id)` — the collision system is not touched. -/
def removeNPC (m : NPCManagerState) (id : ℕ) : NPCManagerState :=
  { m with npcs := m.npcs.filter (fun p => decide (p.1 ≠ id)) }

/-- The prune phase of `NPCManager.update` (part_000 lines 338-352), applied
to the per-NPC-updated states: collect every id that is beyond the despawn
range 1000 or dead, then `removeNPC` each.  The phase performs no collision
system operation whatsoever. -/
def npcPrune (m : NPCManagerState) (playerPosition : Vec) : NPCManagerState :=
  let npcToRemove :=
    (m.npcs.filter (fun p =>
      decide (sqrtGt (Vec.distSq p.2.position playerPosition) 1000) || p.2.isDead)).map
      (fun p => p.1)
  npcToRemove.foldl removeNPC m

/-- The world-level view of the prune phase: since the source code of
`removeNPC` and of the removal loop contains no collision-system call, the
registry component passes through unchanged. -/
def npcWorldPrune (cs : CollisionSystem) (m : NPCManagerState) (playerPosition : Vec) :
    CollisionSystem × NPCManagerState :=
  (cs, npcPrune m playerPosition)

/-- The vehicle manager's entity map and id counter. -/
structure VehicleManagerState where
  vehicles : List (ℕ × VehicleState)
  vehicleIdCounter : ℕ := 0
deriving Repr

open CollisionSystem in
/-- `VehicleManager.spawnVehicle(position)`: at the cap of 5 return the state
unchanged; else create the vehicle and register its circle collider. -/
def spawnVehicle (cs : CollisionSystem) (m : VehicleManagerState) (pos : Vec) :
    CollisionSystem × VehicleManagerState :=
  if m.vehicles.length ≥ 5 then (cs, m)
  else
    let id := m.vehicleIdCounter
    let v := vehicleMk id pos
    let cs' := register cs id
      { position := pos, radius := vehicleRadius, ctype := .circle }
    (cs', { vehicles := m.vehicles ++ [(id, v)], vehicleIdCounter := m.vehicleIdCounter + 1 })

/-- `VehicleManager.update(deltaTime, playerPosition)` (part_000 lines
909-944): update every vehicle (threading the registry), collect destroyed
or out-of-range (despawn range 1200) ids, delete them from the map — with no
`unregister` call — then possibly spawn (the `Math.random() < 0.01` draw and
the random spawn offset enter as the `rand` and `spawnPos` parameters). -/
def vehicleManagerUpdate (dt rand : ℚ) (spawnPos : Vec) (cs : CollisionSystem)
    (m : VehicleManagerState) (playerPosition : Vec) :
    CollisionSystem × VehicleManagerState :=
  let step := fun (acc : CollisionSystem × List (ℕ × VehicleState)) (p : ℕ × VehicleState) =>
    let r := vehicleUpdate dt acc.1 p.2
    (r.1, acc.2 ++ [(p.1, r.2)])
  let upd := m.vehicles.foldl step (cs, [])
  let vehiclesToRemove :=
    (upd.2.filter (fun p =>
      p.2.isDead || decide (sqrtGt (Vec.distSq p.2.position playerPosition) 1200))).map
      (fun p => p.1)
  let kept := upd.2.filter (fun p : ℕ × VehicleState => decide (p.1 ∉ vehiclesToRemove))
  if kept.length < 5 ∧ rand < 1 / 100 then
    spawnVehicle upd.1 { vehicles := kept, vehicleIdCounter := m.vehicleIdCounter } spawnPos
  else
    (upd.1, { vehicles := kept, vehicleIdCounter := m.vehicleIdCounter })

/-! ### Weapon state machine (part_001, class `Weapon`) -/

/-- `WeaponType`. -/
inductive WeaponType where
  | pistol
  | rifle
  | shotgun
deriving DecidableEq, Repr

/-- `FireMode`. -/
inductive FireMode where
  | semiAuto
  | fullAuto
deriving DecidableEq, Repr

/-- `WeaponConfig`. -/
structure WeaponConfig where
  damage : ℚ
  fireRate : ℚ
  range : ℚ
  bulletSpeed : ℚ
  bulletSize : ℚ
  accuracy : ℚ
  magazineCapacity : ℚ
  reloadTime : ℚ
  fireMode : FireMode
  spread : ℚ
  pelletsPerShot : Option ℚ := none
deriving Repr

/-- `getWeaponConfig`, the literal configuration table. -/
def getWeaponConfig : WeaponType → WeaponConfig
  | .pistol =>
    { damage := 10, fireRate := 5, range := 300, bulletSpeed := 500, bulletSize := 3,
      accuracy := 9 / 10, magazineCapacity := 10, reloadTime := 8 / 10,
      fireMode := .semiAuto, spread := 0 }
  | .rifle =>
    { damage := 20, fireRate := 8, range := 500, bulletSpeed := 700, bulletSize := 4,
      accuracy := 95 / 100, magazineCapacity := 30, reloadTime := 2,
      fireMode := .fullAuto, spread := 15 }
  | .shotgun =>
    { damage := 15, fireRate := 1, range := 150, bulletSpeed := 400, bulletSize := 2,
      accuracy := 95 / 100, magazineCapacity := 6, reloadTime := 12 / 10,
      fireMode := .semiAuto, spread := 15, pelletsPerShot := some 8 }

/-- The mutable fields of `Weapon`. -/
structure WeaponState where
  wtype : WeaponType
  currentAmmo : ℚ
  reserveAmmo : ℚ
  lastFireTime : ℚ := 0
  isReloading : Bool := false
  reloadStartTime : ℚ := 0
  mouseDown : Bool := false
deriving DecidableEq, Repr

/-- `Weapon.startReload(currentTime)`: rejected while reloading or with a full
magazine; starts only with positive reserve. -/
def startReload (currentTime : ℚ) (w : WeaponState) : WeaponState :=
  if w.isReloading ∨ w.currentAmmo = (getWeaponConfig w.wtype).magazineCapacity then w
  else if w.reserveAmmo > 0 then
    { w with isReloading := true, reloadStartTime := currentTime }
  else w

/-- `Weapon.updateReload(currentTime)`: once the reload duration has elapsed,
top the magazine up by `min(capacity - current, reserve)`, debited from the
reserve. -/
def updateReload (currentTime : ℚ) (w : WeaponState) : WeaponState :=
  if ¬ w.isReloading then w
  else if currentTime - w.reloadStartTime ≥ (getWeaponConfig w.wtype).reloadTime then
    let needAmmo := (getWeaponConfig w.wtype).magazineCapacity - w.currentAmmo
    let reloadAmmo := qmin needAmmo w.reserveAmmo
    { w with isReloading := false, currentAmmo := w.currentAmmo + reloadAmmo,
             reserveAmmo := w.reserveAmmo - reloadAmmo }
  else w

/-! ### NPC vision cone (NPC.ts, `isPointInVision`) -/

/-- `NPC.isPointInVision(point)` in the polar representation: `dist` is the
distance from the NPC to the point, `pointAngleDeg` the bearing
`atan2(toPoint.y, toPoint.x)` and `dirAngleDeg` the facing
`atan2(direction.y, direction.x)`, both carried in degrees in `(-180, 180]`
(the range of `atan2`).  The source's two normalization `while` loops each
run at most once on such inputs, which the one-shot conditional reproduces;
the final radian comparison is scaled to degrees. -/
def isPointInVisionPolar (visionRange visionAngle dist pointAngleDeg dirAngleDeg : ℚ) : Bool :=
  if dist > visionRange then false
  else
    let angleDiff := pointAngleDeg - dirAngleDeg
    let norm :=
      if angleDiff > 180 then angleDiff - 360
      else if angleDiff < -180 then angleDiff + 360
      else angleDiff
    decide (|norm| ≤ visionAngle / 2)

/-- Specification-side normalization of an angle (in degrees) into the
interval `[-180, 180]`: subtract the nearest multiple of 360. -/
def wrapDeg (a : ℚ) : ℚ := a - 360 * round (a / 360)

/-! ### Player weapon inventory and vehicle round trip (Player.ts) -/

/-- The Player fields involved in weapon switching and vehicle entry/exit.
`inVehicle` stands for `currentVehicle !== null`. -/
structure PlayerWeapons where
  owned : List WeaponType
  current : WeaponType
  inVehicle : Bool
  weaponBeforeVehicle : WeaponType
deriving DecidableEq, Repr

/-- `Player.switchWeapon(weaponType)` (lines 228-236): in a vehicle only the
pistol is accepted; otherwise switch only to an owned weapon. -/
def switchWeapon (wt : WeaponType) (s : PlayerWeapons) : PlayerWeapons :=
  if s.inVehicle ∧ wt ≠ .pistol then s
  else if wt ∈ s.owned then { s with current := wt }
  else s

/-- `Player.enterVehicle(vehicle)` (lines 248-254): remember the current
weapon, then force the pistol. -/
def enterVehicle (s : PlayerWeapons) : PlayerWeapons :=
  { s with inVehicle := true, weaponBeforeVehicle := s.current, current := .pistol }

/-- `Player.exitVehicle()` (lines 259-286), weapon/vehicle fields only (the
source also relocates the player beside the vehicle): restore the remembered
weapon when it is owned. -/
def exitVehicle (s : PlayerWeapons) : PlayerWeapons :=
  if s.inVehicle then
    { s with inVehicle := false,
             current := if s.weaponBeforeVehicle ∈ s.owned then s.weaponBeforeVehicle
                        else s.current }
  else s

/-! ### Combat hit passes (core/Game.ts, `checkBulletHits` /
`checkNPCBulletHits`) -/

/-- The `Bullet` fields read by the hit passes. -/
structure BulletState where
  position : Vec
  velocity : Vec := (0, 0)
  damage : ℚ
  range : ℚ := 300
  size : ℚ
  distanceTraveled : ℚ := 0
  ownerId : ℕ
deriving DecidableEq, Repr

/-- The game state threaded through the two hit passes. -/
structure GameCombat where
  npcs : List NPCState
  vehicles : List (ℕ × VehicleState)
  player : PlayerCombat
  playerVehicle : Option ℕ := none
  score : ℕ := 0
deriving Repr

/-- The source loops `for (let i = bullets.length - 1; i >= 0; i--)` with
`removeBullet(i)` on a hit: bullets are processed from the last index to the
first, and a hit bullet is spliced out.  `f` returns whether the bullet hit
together with the updated state. -/
def processBulletsRev {S : Type} (f : BulletState → S → Bool × S) :
    List BulletState → S → List BulletState × S
  | [], s => ([], s)
  | b :: rest, s =>
    let r := processBulletsRev f rest s
    let h := f b r.2
    (if h.1 then r.1 else b :: r.1, h.2)

/-- The NPC loop of `checkBulletHits`: the first NPC in list order that is
not dead and overlaps the bullet takes the damage (with the player position
as attacker); returns the updated list and whether that NPC is now dead
(the score trigger). -/
def hitFirstNPC (bulletPos : Vec) (bsize damage : ℚ) (playerPos : Vec) :
    List NPCState → Option (List NPCState × Bool)
  | [] => none
  | npc :: rest =>
    if ¬ npc.isDead ∧ sqrtLt (Vec.distSq bulletPos npc.position) (bsize + npcRadius) then
      let npc' := npcTakeDamage damage (some playerPos) npc
      some (npc' :: rest, npc'.isDead)
    else
      (hitFirstNPC bulletPos bsize damage playerPos rest).map (fun r => (npc :: r.1, r.2))

/-- The vehicle loop shared by both hit passes: skip destroyed vehicles and
(in the player-bullet pass) the vehicle the player occupies; the first
overlapping vehicle takes the damage. -/
def hitFirstVehicle (bulletPos : Vec) (bsize damage : ℚ) (skipId : Option ℕ) :
    List (ℕ × VehicleState) → Option (List (ℕ × VehicleState))
  | [] => none
  | (vid, veh) :: rest =>
    if ¬ veh.isDead ∧ skipId ≠ some vid ∧
        sqrtLt (Vec.distSq bulletPos veh.position) (bsize + vehicleRadius) then
      some ((vid, vehicleTakeDamage damage veh) :: rest)
    else
      (hitFirstVehicle bulletPos bsize damage skipId rest).map (fun r => (vid, veh) :: r)

/-- `Game.checkBulletHits()` (core/Game.ts lines 1087-1156): player bullets
against NPCs first, then vehicles (excluding the player's own vehicle); a
bullet is consumed by its first hit; an NPC kill increments the score. -/
def checkBulletHits (bullets : List BulletState) (g : GameCombat) :
    List BulletState × GameCombat :=
  processBulletsRev (fun b g =>
    match hitFirstNPC b.position b.size b.damage g.player.position g.npcs with
    | some r =>
      (true, { g with npcs := r.1, score := if r.2 then g.score + 1 else g.score })
    | none =>
      match hitFirstVehicle b.position b.size b.damage g.playerVehicle g.vehicles with
      | some vehicles' => (true, { g with vehicles := vehicles' })
      | none => (false, g)) bullets g

/-- `Game.checkNPCBulletHits()` (core/Game.ts lines 1161-1211): NPC bullets
against the player (only when not in a vehicle), then against vehicles
(skipping only destroyed ones). -/
def checkNPCBulletHits (bullets : List BulletState) (g : GameCombat) :
    List BulletState × GameCombat :=
  processBulletsRev (fun b g =>
    if ¬ g.player.inVehicle ∧
        sqrtLt (Vec.distSq b.position g.player.position) (b.size + playerRadius) then
      (true, { g with player := playerTakeDamage b.damage g.player })
    else
      match hitFirstVehicle b.position b.size b.damage none g.vehicles with
      | some vehicles' => (true, { g with vehicles := vehicles' })
      | none => (false, g)) bullets g

/-! ### Concrete scenario states used by the claim theorems -/

open CollisionSystem in
/-- Registry for the head-on wall scenario: the vehicle's circle collider
(id 10) at `(85, 0)` and a building wall rect (id 20) at `(100, -100)` of
size `32 × 200`, as `GameMap.generateBuildingsInChunk` registers them. -/
def csWall : CollisionSystem :=
  register (register [] 10
    { position := (85, 0), radius := vehicleRadius, ctype := .circle }) 20
    { position := (100, -100), radius := 0, ctype := .rect, width := some 32, height := some 200 }

/-- The vehicle of the head-on wall scenario: overlapping the wall edge,
moving at speed 100 along +X. -/
def vehC2 : VehicleState :=
  { id := 10, position := (85, 0), velocity := (100, 0), heading := (1, 0) }

/-- A vehicle state at speed 896.4, reachable through the public API: from a
fresh vehicle (rotation 0), 125 `accelerate()` calls each add 7.2 to the
speed (the guard sees 0, 7.2, ..., 892.8 < 900) reaching exactly 900; one
`update` tick applies friction (900 × 0.98 = 882); two more `accelerate()`
calls pass 889.2 and reach 896.4 = 4482/5, still below `maxSpeed`. -/
def vehNearMax : VehicleState :=
  { id := 11, position := (0, 0), velocity := (4482 / 5, 0), heading := (1, 0) }

open CollisionSystem in
/-- Registry with a single dead NPC's collider (id 30), as registered by
`NPC.setCollisionSystem`. -/
def csNpcWorld : CollisionSystem :=
  register [] 30 { position := (0, 0), radius := npcRadius, ctype := .circle }

/-- A dead NPC at the origin. -/
def npcDead : NPCState := { position := (0, 0), health := 0, isDead := true }

/-- NPC manager holding only the dead NPC. -/
def npcMgr0 : NPCManagerState := { npcs := [(30, npcDead)], npcIdCounter := 1 }

open CollisionSystem in
/-- Registry with a single destroyed vehicle's collider (id 31). -/
def csVehWorld : CollisionSystem :=
  register [] 31 { position := (7, 7), radius := vehicleRadius, ctype := .circle }

/-- A destroyed, stationary vehicle. -/
def vehDead : VehicleState :=
  { id := 31, position := (7, 7), velocity := (0, 0), heading := (1, 0),
    health := 0, isDead := true }

/-- Vehicle manager holding only the destroyed vehicle. -/
def vehMgr0 : VehicleManagerState := { vehicles := [(31, vehDead)], vehicleIdCounter := 1 }

/-- The target vehicle (id 40) of the double-hit scenario, with parametric
health. -/
def vehTarget (h : ℚ) : VehicleState :=
  { id := 40, position := (0, 0), velocity := (0, 0), heading := (1, 0), health := h }

/-- A player bullet (pistol size 3) sitting on the target vehicle. -/
def pBullet (d : ℚ) : BulletState := { position := (0, 0), damage := d, size := 3, ownerId := 50 }

/-- An NPC bullet (size 3) sitting on the same target vehicle. -/
def nBullet (d : ℚ) : BulletState := { position := (0, 0), damage := d, size := 3, ownerId := 30 }

/-- Game state of the double-hit scenario: one live vehicle, no NPCs, the
player on foot 500px away (so NPC bullets miss the player). -/
def gameC3 (h : ℚ) : GameCombat :=
  { npcs := [], vehicles := [(40, vehTarget h)], player := { position := (500, 0) } }

/-- One tick's hit resolution as `Game.update` runs it: `checkBulletHits` on
the player bullets first, then `checkNPCBulletHits` on the NPC bullets,
against the same game state. -/
def tickHits (h d1 d2 : ℚ) : GameCombat :=
  (checkNPCBulletHits [nBullet d2] (checkBulletHits [pBullet d1] (gameC3 h)).2).2

/-- Game state with two live NPCs standing on the same point and the player
500px away. -/
def twoNpcState : GameCombat :=
  { npcs := [{ position := (0, 0) }, { position := (0, 0) }], vehicles := [],
    player := { position := (500, 0) } }

/-- The reload round trip: start with the given magazine and reserve, call
`startReload` at `t0`, then `updateReload` exactly `reloadTime` later. -/
def reloadRun (wt : WeaponType) (cur R t0 : ℚ) : WeaponState :=
  updateReload (t0 + (getWeaponConfig wt).reloadTime)
    (startReload t0 { wtype := wt, currentAmmo := cur, reserveAmmo := R })

/-- A player inventory state: pistol and rifle owned, rifle equipped, on
foot. -/
def pw0 : PlayerWeapons :=
  { owned := [.pistol, .rifle], current := .rifle, inVehicle := false,
    weaponBeforeVehicle := .pistol }

open CollisionSystem in
/-- C9. For every pair of registered colliders, of any shape combination,
`isColliding(A,B)` equals `isColliding(B,A)`. -/
theorem isColliding_symm (cs : CollisionSystem) (id1 id2 : ℕ) :
    isColliding cs id1 id2 ↔ isColliding cs id2 id1 := by
  rcases h1 : getCollider cs id1 with _ | c1 <;>
    rcases h2 : getCollider cs id2 with _ | c2 <;>
      simp only [isColliding, h1, h2]
  rcases hc1 : c1.ctype <;> rcases hc2 : c2.ctype <;>
    simp only [collidersCollide, hc1, hc2]
  · unfold circleToCircle sqrtLt Vec.distSq Vec.normSq Vec.sub
    constructor <;>
      (rintro ⟨hs, hd⟩; ring_nf at hd ⊢; exact ⟨by linarith, by linarith⟩)
  · unfold rectToRect
    constructor <;> (rintro ⟨a, b, c, d⟩; exact ⟨b, a, d, c⟩)

open CollisionSystem in
/-- Updating the same id's position twice keeps only the last write. -/
theorem updatePosition_twice (cs : CollisionSystem) (id : ℕ) (p q : Vec) :
    updatePosition (updatePosition cs id p) id q = updatePosition cs id q := by
  simp only [updatePosition, List.map_map]
  congr 1
  funext pr
  by_cases h : pr.1 = id <;> simp [h]

open CollisionSystem in
/-- C4. Player/NPC movement: the committed position is exactly the first
collision-free candidate among the full move, the X-only move, the Y-only
move and the unchanged position (X always tried before Y), each judged by a
collision query at that tentative position; the velocity vector is not
modified by the resolution. -/
theorem axisSlideMove_commits (cs : CollisionSystem) (id : ℕ) (pos vel : Vec) (dt : ℚ) :
    (axisSlideMove cs id pos vel dt).2.2 = vel ∧
    (axisSlideMove cs id pos vel dt).2.1 =
      (if collisionsAt cs id (Vec.add pos (Vec.mul vel dt)) = [] then
        Vec.add pos (Vec.mul vel dt)
      else if collisionsAt cs id (Vec.add pos (vel.1 * dt, 0)) = [] then
        Vec.add pos (vel.1 * dt, 0)
      else if collisionsAt cs id (Vec.add pos (0, vel.2 * dt)) = [] then
        Vec.add pos (0, vel.2 * dt)
      else pos) := by
  simp only [axisSlideMove, collisionsAt, updatePosition_twice, ne_eq, ite_not]
  split_ifs <;> simp_all

section KernelEval

/- The Batteries rational operations are `@[irreducible]`; within this section
they are made semireducible so that closed-form runs of the embedded code can
be checked by `decide`. -/
attribute [local semireducible] Rat.mul Rat.add Rat.sub Rat.inv

open CollisionSystem in
/-- C1. A dead NPC and a destroyed vehicle are removed by their managers, yet
their colliders are still registered afterwards: the `removeNPC` /
`vehicles.delete` code deletes only the manager's map entry and never calls
`CollisionSystem.unregister`, leaving a stale collider. -/
theorem stale_collider_after_despawn :
    ((npcWorldPrune csNpcWorld npcMgr0 (2000, 0)).2.npcs = [] ∧
     getCollider (npcWorldPrune csNpcWorld npcMgr0 (2000, 0)).1 30 =
       some { position := (0, 0), radius := npcRadius, ctype := .circle }) ∧
    ((vehicleManagerUpdate (16/1000) 1 (0, 0) csVehWorld vehMgr0 (0, 0)).2.vehicles = [] ∧
     getCollider (vehicleManagerUpdate (16/1000) 1 (0, 0) csVehWorld vehMgr0 (0, 0)).1 31 =
       some { position := (7, 7), radius := vehicleRadius, ctype := .circle }) := by
  decide

/-- C2, counterexample. In the head-on wall collision at speed 100 with
restitution 0.6, the resulting velocity component along the inward normal is
`-58.8`, not `-0.6 × 100 = -60`: friction (×0.98) is applied before the
collision is resolved. -/
theorem vehicle_bounce_counterexample :
    (vehicleUpdate (16/1000) csWall vehC2).2.velocity = (-(294/5), 0) ∧
    ((-(294/5) : ℚ) ≠ -(6/10) * 100) := by
  decide

/-- C2, amended. In the head-on wall collision, friction is applied first, so
the reflected component is `-0.6 × (0.98 × 100) = -58.8`; the impact damage
`max(1, floor(98/30)) = 3` is applied (health 100 → 97, not destroyed). -/
theorem vehicle_bounce_amended :
    (vehicleUpdate (16/1000) csWall vehC2).2.velocity.1 = -(6/10) * ((98/100) * 100) ∧
    (vehicleUpdate (16/1000) csWall vehC2).2.velocity.2 = 0 ∧
    (vehicleUpdate (16/1000) csWall vehC2).2.health = 100 - 3 ∧
    (vehicleUpdate (16/1000) csWall vehC2).2.isDead = false := by
  decide

/-- C5, counterexample. A vehicle at speed 896.4 < 900 (see `vehNearMax` for
its public-API derivation): one `accelerate()` call raises the speed to
903.6 > maxSpeed — the guard only checks the speed before adding, it does
not clamp the result. -/
theorem accelerate_overshoot :
    Vec.normSq vehNearMax.velocity < vehicleMaxSpeed * vehicleMaxSpeed ∧
    Vec.normSq (vehicleAccelerate vehNearMax).velocity > vehicleMaxSpeed * vehicleMaxSpeed := by
  decide

end KernelEval

/-- The fuel-based Newton iteration agrees with `Nat.sqrt.iter` whenever the
fuel is at least the guess. -/
theorem sqrtIterFuel_eq (n : ℕ) :
    ∀ f g, g ≤ f → sqrtIterFuel n f g = Nat.sqrt.iter n g := by
  intro f
  induction f with
  | zero =>
    intro g hg
    have hg0 : g = 0 := Nat.le_zero.mp hg
    subst hg0
    simp [sqrtIterFuel, Nat.sqrt.iter]
  | succ f ih =>
    intro g hg
    rw [sqrtIterFuel, Nat.sqrt.iter]
    show (if (g + n / g) / 2 < g then sqrtIterFuel n f ((g + n / g) / 2) else g) =
      dite ((g + n / g) / 2 < g) (fun _ => Nat.sqrt.iter n ((g + n / g) / 2)) (fun _ => g)
    by_cases h : (g + n / g) / 2 < g
    · rw [if_pos h, dif_pos h]
      exact ih _ (by omega)
    · rw [if_neg h, dif_neg h]

/-- `natSqrtE` is the integer square root. -/
theorem natSqrtE_eq (n : ℕ) : natSqrtE n = Nat.sqrt n := by
  rw [natSqrtE, Nat.sqrt]
  split
  · rfl
  · exact sqrtIterFuel_eq n (n / 2) (n / 2) le_rfl

/-- C5, amended. An `accelerate()` step is either a no-op (speed already at or
above `maxSpeed`) or leaves the speed strictly below
`maxSpeed + acceleration·0.016 = 907.2`: the guard checks the speed before
adding the 7.2-long heading impulse, so a step can overshoot `maxSpeed`, but
never by 7.2 or more. -/
theorem accelerate_speed_bound (v : VehicleState) (h : Vec.normSq v.heading = 1) :
    vehicleAccelerate v = v ∨
    Vec.normSq (vehicleAccelerate v).velocity <
      (vehicleMaxSpeed + vehicleAccelConst * (16 / 1000)) *
        (vehicleMaxSpeed + vehicleAccelConst * (16 / 1000)) := by
  unfold vehicleAccelerate
  by_cases hc : Vec.normSq v.velocity < vehicleMaxSpeed * vehicleMaxSpeed
  · right
    rw [if_pos hc]
    simp only [Vec.normSq, Vec.add, Vec.mul, vehicleMaxSpeed, vehicleAccelConst] at *
    have key : (v.velocity.1 * v.heading.1 + v.velocity.2 * v.heading.2) *
        (v.velocity.1 * v.heading.1 + v.velocity.2 * v.heading.2) ≤
        (v.velocity.1 * v.velocity.1 + v.velocity.2 * v.velocity.2) *
        (v.heading.1 * v.heading.1 + v.heading.2 * v.heading.2) := by
      nlinarith [sq_nonneg (v.velocity.1 * v.heading.2 - v.velocity.2 * v.heading.1)]
    rw [h] at key
    nlinarith [key, hc, h]
  · left
    rw [if_neg hc]

/-- Witness for `accelerate_speed_bound` at a fresh vehicle. -/
theorem accelerate_speed_bound_witness :
    vehicleAccelerate (vehicleMk 12 (0, 0)) = vehicleMk 12 (0, 0) ∨
    Vec.normSq (vehicleAccelerate (vehicleMk 12 (0, 0))).velocity <
      (vehicleMaxSpeed + vehicleAccelConst * (16 / 1000)) *
        (vehicleMaxSpeed + vehicleAccelConst * (16 / 1000)) :=
  accelerate_speed_bound (vehicleMk 12 (0, 0)) (by norm_num [Vec.normSq, vehicleMk])

/-- C8. For each of NPC, Player and Vehicle: once `isDead` is true,
`takeDamage` returns the state unchanged (health untouched, no behavior or
other side effect) and `isDead` stays true; and the post-damage health never
drops below 0 (clamped on the killing blow). -/
theorem takeDamage_props (n : NPCState) (p : PlayerCombat) (v : VehicleState)
    (d : ℚ) (ap : Option Vec) :
    (n.isDead = true → npcTakeDamage d ap n = n) ∧
    (0 ≤ n.health → 0 ≤ (npcTakeDamage d ap n).health) ∧
    (n.isDead = true → (npcTakeDamage d ap n).isDead = true) ∧
    (p.isDead = true → playerTakeDamage d p = p) ∧
    (0 ≤ p.health → 0 ≤ (playerTakeDamage d p).health) ∧
    (p.isDead = true → (playerTakeDamage d p).isDead = true) ∧
    (v.isDead = true → vehicleTakeDamage d v = v) ∧
    (0 ≤ v.health → 0 ≤ (vehicleTakeDamage d v).health) ∧
    (v.isDead = true → (vehicleTakeDamage d v).isDead = true) := by
  unfold npcTakeDamage playerTakeDamage vehicleTakeDamage
  refine ⟨?_, ?_, ?_, ?_, ?_, ?_, ?_, ?_, ?_⟩ <;> intro h
  · simp [h]
  · by_cases hd : n.isDead
    · simpa [hd] using h
    · rcases ap <;> simp only [hd, Bool.false_eq_true, if_false] <;>
        split_ifs <;> simp_all <;> linarith
  · simp [h]
  · simp [h]
  · by_cases hd : p.isDead
    · simpa [hd] using h
    · simp only [hd, Bool.false_eq_true, if_false]
      split_ifs <;> simp_all
      linarith
  · simp [h]
  · simp [h]
  · by_cases hd : v.isDead
    · simpa [hd] using h
    · simp only [hd, Bool.false_eq_true, if_false]
      split_ifs <;> simp_all
      linarith
  · simp [h]

/-- Witness for `takeDamage_props`: a dead NPC/player/vehicle is untouched by
further damage, and damage on a live entity keeps health nonnegative. -/
theorem takeDamage_props_witness :
    npcTakeDamage 5 none { position := (0, 0), health := 0, isDead := true } =
      { position := (0, 0), health := 0, isDead := true } ∧
    (0 : ℚ) ≤ (npcTakeDamage 5 none { position := ((0 : ℚ), (0 : ℚ)), health := 3 }).health ∧
    playerTakeDamage 5 { position := (0, 0), health := 0, isDead := true } =
      { position := (0, 0), health := 0, isDead := true } ∧
    (0 : ℚ) ≤ (playerTakeDamage 5 { position := ((0 : ℚ), (0 : ℚ)), health := 3 }).health ∧
    vehicleTakeDamage 5 { vehicleMk 13 (0, 0) with health := 0, isDead := true } =
      { vehicleMk 13 (0, 0) with health := 0, isDead := true } ∧
    (0 : ℚ) ≤ (vehicleTakeDamage 5 (vehicleMk 13 (0, 0))).health :=
  ⟨(takeDamage_props { position := (0, 0), health := 0, isDead := true }
      { position := (0, 0) } (vehicleMk 13 (0, 0)) 5 none).1 rfl,
   (takeDamage_props { position := ((0 : ℚ), (0 : ℚ)), health := 3 }
      { position := (0, 0) } (vehicleMk 13 (0, 0)) 5 none).2.1 (by norm_num),
   (takeDamage_props { position := ((0 : ℚ), (0 : ℚ)), health := 3 }
      { position := (0, 0), health := 0, isDead := true } (vehicleMk 13 (0, 0)) 5 none).2.2.2.1 rfl,
   (takeDamage_props { position := ((0 : ℚ), (0 : ℚ)), health := 3 }
      { position := ((0 : ℚ), (0 : ℚ)), health := 3 } (vehicleMk 13 (0, 0)) 5 none).2.2.2.2.1 (by norm_num),
   (takeDamage_props { position := ((0 : ℚ), (0 : ℚ)), health := 3 }
      { position := (0, 0) } { vehicleMk 13 (0, 0) with health := 0, isDead := true } 5 none).2.2.2.2.2.2.1 rfl,
   (takeDamage_props { position := ((0 : ℚ), (0 : ℚ)), health := 3 }
      { position := (0, 0) } (vehicleMk 13 (0, 0)) 5 none).2.2.2.2.2.2.2.1 (by norm_num [vehicleMk])⟩

/-- C6. Reload round trip: with an empty magazine and reserve
`R ≥ magazineCapacity`, `startReload` at `t0` followed by `updateReload` at
`t0 + reloadTime` fills the magazine to capacity and debits exactly the
capacity from the reserve. -/
theorem reload_round_trip (wt : WeaponType) (R t0 : ℚ)
    (hR : (getWeaponConfig wt).magazineCapacity ≤ R) :
    (reloadRun wt 0 R t0).currentAmmo = (getWeaponConfig wt).magazineCapacity ∧
    (reloadRun wt 0 R t0).reserveAmmo = R - (getWeaponConfig wt).magazineCapacity := by
  have hR0 : (0 : ℚ) < R := by
    rcases wt <;> simp only [getWeaponConfig] at hR <;> linarith
  rcases wt <;>
    simp_all [reloadRun, startReload, updateReload, getWeaponConfig, qmin]

/-- Witness for `reload_round_trip`: a pistol (capacity 10) with reserve 25. -/
theorem reload_round_trip_witness :
    (reloadRun .pistol 0 25 0).currentAmmo = (getWeaponConfig .pistol).magazineCapacity ∧
    (reloadRun .pistol 0 25 0).reserveAmmo = 25 - (getWeaponConfig .pistol).magazineCapacity :=
  reload_round_trip .pistol 25 0 (by norm_num [getWeaponConfig])

/-- While in a vehicle with the pistol equipped, any sequence of
`switchWeapon` calls keeps the pistol equipped and leaves the vehicle flag,
the remembered weapon, and the inventory untouched. -/
theorem switchFold_invariant (wts : List WeaponType) :
    ∀ t : PlayerWeapons, t.inVehicle = true → t.current = .pistol →
      (wts.foldl (fun s wt => switchWeapon wt s) t).inVehicle = true ∧
      (wts.foldl (fun s wt => switchWeapon wt s) t).current = .pistol ∧
      (wts.foldl (fun s wt => switchWeapon wt s) t).weaponBeforeVehicle =
        t.weaponBeforeVehicle ∧
      (wts.foldl (fun s wt => switchWeapon wt s) t).owned = t.owned := by
  induction wts with
  | nil => intro t hv hc; exact ⟨hv, hc, rfl, rfl⟩
  | cons w ws ih =>
    intro t hv hc
    have hstep : (switchWeapon w t).inVehicle = true ∧
        (switchWeapon w t).current = .pistol ∧
        (switchWeapon w t).weaponBeforeVehicle = t.weaponBeforeVehicle ∧
        (switchWeapon w t).owned = t.owned := by
      unfold switchWeapon
      by_cases hw : w = WeaponType.pistol
      · subst hw
        simp only [hv, ne_eq, not_true_eq_false, and_false, if_false]
        split_ifs <;> simp_all
      · simp [hv, hw, hc]
    obtain ⟨h1, h2, h3, h4⟩ := ih (switchWeapon w t) hstep.1 hstep.2.1
    exact ⟨h1, h2, h3.trans hstep.2.2.1, h4.trans hstep.2.2.2⟩

/-- C10. Entering a vehicle forces the pistol; switching to any non-pistol
weapon while in a vehicle is a no-op; and enter, arbitrary in-vehicle weapon
switches, then exit restore exactly the weapon type held before entering
(provided, as the player invariant guarantees, that weapon is owned). -/
theorem vehicle_weapon_round_trip (s : PlayerWeapons) (wts : List WeaponType)
    (_hv : s.inVehicle = false) (ho : s.current ∈ s.owned) :
    (enterVehicle s).current = WeaponType.pistol ∧
    (∀ (t : PlayerWeapons) (wt : WeaponType), t.inVehicle = true →
      wt ≠ WeaponType.pistol → switchWeapon wt t = t) ∧
    (exitVehicle (wts.foldl (fun t wt => switchWeapon wt t) (enterVehicle s))).current =
      s.current := by
  refine ⟨rfl, ?_, ?_⟩
  · intro t wt h1 h2
    simp [switchWeapon, h1, h2]
  · obtain ⟨h1, h2, h3, h4⟩ := switchFold_invariant wts (enterVehicle s) rfl rfl
    unfold exitVehicle
    rw [if_pos h1]
    simp only [h3, h4]
    show (if s.current ∈ s.owned then s.current
      else (wts.foldl (fun t wt => switchWeapon wt t) (enterVehicle s)).current) = s.current
    rw [if_pos ho]

/-- Witness for `vehicle_weapon_round_trip`: a player owning pistol and rifle,
holding the rifle, entering a vehicle, trying to switch to the shotgun and
the rifle inside, then exiting. -/
theorem vehicle_weapon_round_trip_witness :
    (enterVehicle pw0).current = WeaponType.pistol ∧
    (exitVehicle (([WeaponType.shotgun, WeaponType.rifle]).foldl
        (fun t wt => switchWeapon wt t) (enterVehicle pw0))).current = WeaponType.rifle :=
  ⟨(vehicle_weapon_round_trip pw0 [.shotgun, .rifle] rfl (by decide)).1,
   (vehicle_weapon_round_trip pw0 [.shotgun, .rifle] rfl (by decide)).2.2⟩

section KernelEval2

attribute [local semireducible] Rat.mul Rat.add Rat.sub Rat.inv

/-- C3, counterexample. A live vehicle (health 100) overlapped by one player
bullet and one NPC bullet in the same tick takes BOTH damages: after
`checkBulletHits` then `checkNPCBulletHits` its health is 80, not
`100 - 10 = 90` as the only-first-hit claim would require. -/
theorem double_hit_counterexample :
    (tickHits 100 10 10).vehicles.map (fun p => p.2.health) = [80] ∧
    ((80 : ℚ) ≠ 100 - 10) := by
  decide

/-- C3, amended. Per bullet, the first qualifying target in iteration order
takes the hit and the bullet is destroyed; a dead target is skipped — but a
target that survives the first hit IS hit again by the other owner's bullet
in the same tick.  Concretely: a vehicle with health 100 overlapped by a
player bullet and an NPC bullet (damage 10 each) ends the tick at health
80 (the sum), the second bullet registering too; if the first hit kills it
(health 10), the NPC bullet registers no hit and is not consumed; and a
player bullet over two live NPCs damages only the first and is destroyed. -/
theorem double_hit_amended :
    (tickHits 100 10 10).vehicles.map (fun p => p.2.health) = [80] ∧
    (tickHits 10 10 10).vehicles.map (fun p => (p.2.health, p.2.isDead)) = [(0, true)] ∧
    (checkNPCBulletHits [nBullet 10] (checkBulletHits [pBullet 10] (gameC3 10)).2).1 =
      [nBullet 10] ∧
    (checkBulletHits [pBullet 10] twoNpcState).2.npcs.map (fun n => n.health) = [40, 50] ∧
    (checkBulletHits [pBullet 10] twoNpcState).1 = [] := by
  decide

end KernelEval2

/-- The one-shot normalization used by `isPointInVisionPolar` has the same
absolute value as the specification-side `wrapDeg`, for differences of two
angles in `(-180, 180]`. -/
theorem oneshot_abs_eq_wrapDeg (d : ℚ) (hlb : -360 < d) (hub : d < 360) :
    |(if d > 180 then d - 360 else if d < -180 then d + 360 else d)| = |wrapDeg d| := by
  unfold wrapDeg
  by_cases h1 : d > 180
  · rw [if_pos h1]
    have hr : round (d / 360) = 1 := by
      rw [round_eq, Int.floor_eq_iff]
      constructor
      · push_cast
        have : (1 : ℚ) / 2 < d / 360 := by
          rw [lt_div_iff₀ (by norm_num : (0 : ℚ) < 360)]
          linarith
        linarith
      · push_cast
        have : d / 360 < 1 := by
          rw [div_lt_one (by norm_num : (0 : ℚ) < 360)]
          linarith
        linarith
    rw [hr]
    push_cast
    ring_nf
  · rw [if_neg h1]
    by_cases h2 : d < -180
    · rw [if_pos h2]
      have hr : round (d / 360) = -1 := by
        rw [round_eq, Int.floor_eq_iff]
        constructor
        · push_cast
          have : (-1 : ℚ) < d / 360 := by
            rw [lt_div_iff₀ (by norm_num : (0 : ℚ) < 360)]
            linarith
          linarith
        · push_cast
          have : d / 360 < -1 / 2 := by
            rw [div_lt_iff₀ (by norm_num : (0 : ℚ) < 360)]
            linarith
          linarith
      rw [hr]
      push_cast
      ring_nf
    · rw [if_neg h2]
      push_neg at h1 h2
      by_cases h3 : d = 180
      · subst h3
        have hr : round ((180 : ℚ) / 360) = 1 := by
          rw [round_eq, Int.floor_eq_iff]
          norm_num
        rw [hr]
        norm_num
      · have hr : round (d / 360) = 0 := by
          rw [round_eq, Int.floor_eq_iff]
          constructor
          · push_cast
            have : (-1 : ℚ) / 2 ≤ d / 360 := by
              rw [div_le_div_iff₀ (by norm_num) (by norm_num : (0 : ℚ) < 360)]
              linarith
            linarith
          · push_cast
            have hd180 : d < 180 := lt_of_le_of_ne h1 h3
            have : d / 360 < 1 / 2 := by
              rw [div_lt_div_iff₀ (by norm_num : (0 : ℚ) < 360) (by norm_num)]
              linarith
            linarith
        rw [hr]
        push_cast
        ring_nf

/-- C7. `isPointInVision` in polar form: the point is visible iff its distance
is at most `visionRange` AND the absolute angular difference between facing
and bearing, normalized into `[-180°, 180°]`, is at most `visionAngle / 2` —
and the 120°-cone scenario: a target at distance 100, bearing 59° is seen,
at bearing 61° it is not. -/
theorem isPointInVision_iff (range angle dist pa da : ℚ)
    (hpa1 : -180 < pa) (hpa2 : pa ≤ 180) (hda1 : -180 < da) (hda2 : da ≤ 180) :
    (isPointInVisionPolar range angle dist pa da = true ↔
      dist ≤ range ∧ |wrapDeg (pa - da)| ≤ angle / 2) ∧
    isPointInVisionPolar 125 120 100 59 0 = true ∧
    isPointInVisionPolar 125 120 100 61 0 = false := by
  refine ⟨?_, ?_, ?_⟩
  · unfold isPointInVisionPolar
    by_cases hR : dist > range
    · rw [if_pos hR]
      simp only [Bool.false_eq_true, false_iff]
      rintro ⟨hle, _⟩
      exact absurd hle (not_le.mpr hR)
    · rw [if_neg hR]
      push_neg at hR
      rw [decide_eq_true_eq]
      rw [oneshot_abs_eq_wrapDeg (pa - da) (by linarith) (by linarith)]
      exact ⟨fun hyp => ⟨hR, hyp⟩, fun hyp => hyp.2⟩
  · unfold isPointInVisionPolar
    norm_num
  · unfold isPointInVisionPolar
    norm_num

/-- Witness for `isPointInVision_iff` at the scenario angles. -/
theorem isPointInVision_iff_witness :
    (isPointInVisionPolar 125 120 100 59 0 = true ↔
      (100 : ℚ) ≤ 125 ∧ |wrapDeg (59 - 0)| ≤ 120 / 2) ∧
    isPointInVisionPolar 125 120 100 59 0 = true :=
  ⟨(isPointInVision_iff 125 120 100 59 0 (by norm_num) (by norm_num) (by norm_num)
      (by norm_num)).1,
   (isPointInVision_iff 125 120 100 59 0 (by norm_num) (by norm_num) (by norm_num)
      (by norm_num)).2.1⟩
